import Mathlib

/-
Verification development for the PeerConnection orchestrator and the
IceTransport adapter of the libdatachannel core.

The embedding is a shallow one: each C++ member function becomes a Lean
function over an explicit state structure.  Side effects that cross a
component boundary (creating a transport, invoking an application
callback, instructing the SCTP transport to reset a stream, handing a
message to a channel, sending a datagram through the ICE agent) are
recorded as explicit actions in an emitted action list, in the order the
source performs them.  Fallible operations return Except values.
-/

set_option maxRecDepth 4096

namespace LibDataChannel

/-- DTLS/ICE role (`Description::Role` in the source). -/
inductive Role
  | Active
  | Passive
  | ActPass
deriving DecidableEq

/-- The fields of a session description that PeerConnection reads: the
optional certificate fingerprint, the optional SCTP port, and the opaque
SDP body (`Description` in the source, restricted to the consumed fields). -/
structure Description where
  fingerprint : Option String
  sctpPort : Option Nat
  sdp : String
deriving DecidableEq

/-- One ICE candidate: its SDP text tagged with a media-stream identifier,
as built by `Candidate(candidate, mid)` in the source. -/
structure Candidate where
  text : String
  mid : String
deriving DecidableEq

/-- Modelled from the spec: the textual serialization of a `Candidate`
(the Candidate class body is not part of the analysed sources); per the
data model a candidate is surfaced to the application as its SDP text. -/
def Candidate.toText (c : Candidate) : String := c.text

/-- Message classes delivered by the SCTP transport (`Message::Type`). -/
inductive MessageType
  | Binary
  | Text
  | Control
deriving DecidableEq

/-- A multiplexed message: class, stream id and payload bytes. -/
structure Message where
  type : MessageType
  stream : Nat
  data : List Nat
deriving DecidableEq

/-- The single-byte code opening a data channel
(`const byte dataChannelOpenMessage{0x03}` in `forwardMessage`). -/
def dataChannelOpenMessage : Nat := 0x03

/-- Observable side effects of the orchestrator and of the ICE adapter,
recorded in source order. -/
inductive Action
  | initIce (role : Role)
  | iceSetRemoteDescription (d : Description)
  | emitLocalDescription
  | gatherLocalCandidates
  | iceAddRemoteCandidate (c : Candidate) (accepted : Bool)
  | emitLocalCandidate (c : Option String)
  | newChannel (stream : Nat)
  | registerChannel (stream : Nat)
  | channelOpen (stream : Nat)
  | deliverToChannel (stream : Nat)
  | sctpReset (stream : Nat)
  | transmit (streamId : Nat) (payload : List Nat)
deriving DecidableEq

deriving instance DecidableEq for Except

/-- The ICE connectivity states exposed by the ICE agent
(`IceTransport::State`, cast from the agent's component state). -/
inductive NiceState
  | Disconnected
  | Gathering
  | Connecting
  | Connected
  | Ready
  | Failed
deriving DecidableEq

/-- State of the ICE adapter relevant to `changeState` and `send`:
the connectivity state, an instrumentation counter of ready-callback
invocations, and the agent stream id (`mState`, `mReadyCallback`,
`mStreamId`). -/
structure IceTransport where
  state : NiceState
  readyCount : Nat
  streamId : Nat
deriving DecidableEq

/-- `IceTransport::changeState`: store the new state, then invoke the
ready callback whenever the stored state equals READY. -/
def IceTransport.changeState (t : IceTransport) (newState : NiceState) : IceTransport :=
  let t1 : IceTransport := { t with state := newState }
  if t1.state = NiceState.Ready then { t1 with readyCount := t1.readyCount + 1 } else t1

/-- A sequence of connectivity state transitions delivered to the adapter. -/
def IceTransport.runChangeStates (t : IceTransport) (states : List NiceState) : IceTransport :=
  states.foldl IceTransport.changeState t

/-- `IceTransport::outgoing`: hand the message bytes to the agent on the
session's stream. -/
def IceTransport.outgoing (t : IceTransport) (msg : Message) : List Action :=
  [Action.transmit t.streamId msg.data]

/-- `IceTransport::send`: fail without transmitting when the stream id is
zero, otherwise transmit and report success. -/
def IceTransport.send (t : IceTransport) (msg : Message) : Bool × List Action :=
  if t.streamId = 0 then (false, [])
  else (true, t.outgoing msg)

/-- `IceTransport::addRemoteCandidate`: false when the candidate text does
not parse, otherwise the agent's set-remote-candidates result compared
against zero.  The two external outcomes (parse success, agent return
value) are inputs of the model. -/
def IceTransport.addRemoteCandidate (parseOk : Bool) (setRet : Int) : Bool :=
  if !parseOk then false
  else decide (0 < setRet)

/-- `IceTransport::processCandidate`: the value passed to the candidate
callback for a discovered candidate — the candidate SDP tagged with the
stream name, which the constructor fixes to "application". -/
def IceTransport.processCandidate (candidateSdp : String) : Option Candidate :=
  some { text := candidateSdp, mid := "application" }

/-- `IceTransport::processGatheringDone`: the value passed to the
candidate callback when gathering completes — the empty sentinel. -/
def IceTransport.processGatheringDone : Option Candidate :=
  none

/-- PeerConnection state: recorded remote fingerprint, negotiated SCTP
port, the ICE transport (present iff `some role`), the channel registry
keys, existence/readiness of the SCTP transport, the media-stream id
`mMid`, and which application callbacks are registered. -/
structure PeerConnection where
  remoteFingerprint : Option String
  sctpPort : Nat
  iceRole : Option Role
  dataChannels : List Nat
  hasSctp : Bool
  sctpIsReady : Bool
  mid : String
  hasLocalDescriptionCallback : Bool
  hasLocalCandidateCallback : Bool
  hasDataChannelCallback : Bool
deriving DecidableEq

/-- The state of a freshly constructed PeerConnection
(`mMid("0"), mSctpPort(5000)`; no transports, empty registry). -/
def PeerConnection.init : PeerConnection :=
  { remoteFingerprint := none
    sctpPort := 5000
    iceRole := none
    dataChannels := []
    hasSctp := false
    sctpIsReady := false
    mid := "0"
    hasLocalDescriptionCallback := false
    hasLocalCandidateCallback := false
    hasDataChannelCallback := false }

/-- The role used for stream allocation:
`mIceTransport ? mIceTransport->role() : Description::Role::Active`. -/
def PeerConnection.localRole (pc : PeerConnection) : Role :=
  match pc.iceRole with
  | some r => r
  | none => Role.Active

/-- The first stream id tried by `createDataChannel`:
`(role == Description::Role::Active) ? 0 : 1`. -/
def PeerConnection.streamBase (pc : PeerConnection) : Nat :=
  if pc.localRole = Role.Active then 0 else 1

/-- The parity expected of peer-initiated streams:
`(mIceTransport->role() == Description::Role::Active) ? 1 : 0`. -/
def remoteParity (r : Role) : Nat :=
  if r = Role.Active then 1 else 0

/-- `PeerConnection::triggerLocalDescription`: emit the local description
only when a callback is registered and the ICE transport exists. -/
def PeerConnection.triggerLocalDescription (pc : PeerConnection) : List Action :=
  if pc.hasLocalDescriptionCallback && pc.iceRole.isSome then [Action.emitLocalDescription]
  else []

/-- `PeerConnection::triggerLocalCandidate`: when a callback is
registered, forward the optional candidate as its optional text. -/
def PeerConnection.triggerLocalCandidate (pc : PeerConnection)
    (candidate : Option Candidate) : List Action :=
  if pc.hasLocalCandidateCallback then
    [Action.emitLocalCandidate (candidate.map Candidate.toText)]
  else []

/-- `PeerConnection::checkFingerprint`. -/
def PeerConnection.checkFingerprint (pc : PeerConnection) (fingerprint : String) : Bool :=
  match pc.remoteFingerprint with
  | some f => f == fingerprint
  | none => false

/-- The first phase of `PeerConnection::setRemoteDescription`: record the
remote fingerprint when present, then the advertised SCTP port when
present. -/
def PeerConnection.recordRemoteDescription (pc : PeerConnection) (d : Description) :
    PeerConnection :=
  let pc1 : PeerConnection :=
    match d.fingerprint with
    | some f => { pc with remoteFingerprint := some f }
    | none => pc
  match d.sctpPort with
  | some p => { pc1 with sctpPort := p }
  | none => pc1

/-- `PeerConnection::setRemoteDescription`: record fingerprint and SCTP
port; when no ICE transport exists, create one as ActPass, feed it the
description, emit the local description and start gathering; otherwise
only forward the description to the existing transport. -/
def PeerConnection.setRemoteDescription (pc : PeerConnection) (d : Description) :
    PeerConnection × List Action :=
  let pc1 := pc.recordRemoteDescription d
  match pc1.iceRole with
  | none =>
    let pc2 : PeerConnection := { pc1 with iceRole := some Role.ActPass }
    (pc2,
     [Action.initIce Role.ActPass, Action.iceSetRemoteDescription d]
       ++ pc2.triggerLocalDescription ++ [Action.gatherLocalCandidates])
  | some _ => (pc1, [Action.iceSetRemoteDescription d])

/-- `PeerConnection::setRemoteCandidate`: wrap the text with `mMid`; when
an ICE transport exists call its `addRemoteCandidate`, whose boolean
result is discarded; otherwise do nothing.  `parseOk` and `setRet` are
the ICE layer's external outcomes for this candidate. -/
def PeerConnection.setRemoteCandidate (pc : PeerConnection) (text : String)
    (parseOk : Bool) (setRet : Int) : PeerConnection × List Action :=
  let cand : Candidate := { text := text, mid := pc.mid }
  match pc.iceRole with
  | some _ =>
    (pc, [Action.iceAddRemoteCandidate cand (IceTransport.addRemoteCandidate parseOk setRet)])
  | none => (pc, [])

/-- The id-allocation loop of `PeerConnection::createDataChannel`:
starting from `stream`, step by 2 past registered ids, throwing once the
candidate id reaches 65535. -/
def allocLoop (registry : List Nat) (stream : Nat) : Except String Nat :=
  if _h1 : stream ∈ registry then
    if _h2 : 65535 ≤ stream + 2 then Except.error "Too many DataChannels"
    else allocLoop registry (stream + 2)
  else Except.ok stream
termination_by 65535 - stream
decreasing_by omega

/-- `PeerConnection::createDataChannel`: allocate the lowest free id of
the local parity (throwing when ids run out, with no state change, since
the throw precedes the insertion), construct and register the channel,
then either create the ICE transport (role Active) with the
local-description/gathering sequence, or open the channel at once when
the SCTP transport exists and is ready. -/
def PeerConnection.createDataChannel (pc : PeerConnection) :
    Except String Nat × PeerConnection × List Action :=
  match allocLoop pc.dataChannels pc.streamBase with
  | Except.error e => (Except.error e, pc, [])
  | Except.ok stream =>
    let pc1 : PeerConnection := { pc with dataChannels := stream :: pc.dataChannels }
    match pc1.iceRole with
    | none =>
      let pc2 : PeerConnection := { pc1 with iceRole := some Role.Active }
      (Except.ok stream, pc2,
       [Action.newChannel stream, Action.registerChannel stream, Action.initIce Role.Active]
         ++ pc2.triggerLocalDescription ++ [Action.gatherLocalCandidates])
    | some _ =>
      if pc1.hasSctp && pc1.sctpIsReady then
        (Except.ok stream, pc1,
         [Action.newChannel stream, Action.registerChannel stream, Action.channelOpen stream])
      else
        (Except.ok stream, pc1,
         [Action.newChannel stream, Action.registerChannel stream])

/-- `PeerConnection::forwardMessage`: fault when either transport is
missing; deliver to a registered channel; otherwise accept a
channel-open control message of the remote parity by constructing and
registering a new channel and delivering the message to it; otherwise
reset the stream and discard the message. -/
def PeerConnection.forwardMessage (pc : PeerConnection) (msg : Message) :
    Except String (PeerConnection × List Action) :=
  match pc.iceRole, pc.hasSctp with
  | none, _ => Except.error "Got a DataChannel message without transport"
  | some _, false => Except.error "Got a DataChannel message without transport"
  | some r, true =>
    if msg.stream ∈ pc.dataChannels then
      Except.ok (pc, [Action.deliverToChannel msg.stream])
    else
      if msg.type = MessageType.Control ∧ msg.data.head? = some dataChannelOpenMessage ∧
          msg.stream % 2 = remoteParity r then
        Except.ok ({ pc with dataChannels := msg.stream :: pc.dataChannels },
          [Action.newChannel msg.stream, Action.registerChannel msg.stream,
           Action.deliverToChannel msg.stream])
      else
        Except.ok (pc, [Action.sctpReset msg.stream])

/-- `PeerConnection::openDataChannels`: open every registered channel
against the SCTP transport. -/
def PeerConnection.openDataChannels (pc : PeerConnection) : List Action :=
  pc.dataChannels.map Action.channelOpen

/-- The operations that can drive a PeerConnection: the three
application-facing calls, an inbound multiplexed message, the SCTP
transport becoming established and ready (the `initSctpTransport` /
`openDataChannels` callback chain), and callback registration. -/
inductive Op
  | setRemoteDescription (d : Description)
  | setRemoteCandidate (text : String) (parseOk : Bool) (setRet : Int)
  | createDataChannel
  | forwardMessage (msg : Message)
  | sctpEstablished
  | onLocalDescriptionCb
  | onLocalCandidateCb
  | onDataChannelCb

/-- One driving operation applied to a PeerConnection; a thrown exception
leaves the state unchanged and emits nothing. -/
def stepOp (pc : PeerConnection) : Op → PeerConnection × List Action
  | Op.setRemoteDescription d => pc.setRemoteDescription d
  | Op.setRemoteCandidate t p r => pc.setRemoteCandidate t p r
  | Op.createDataChannel => (pc.createDataChannel).2
  | Op.forwardMessage m =>
    match pc.forwardMessage m with
    | Except.ok r => r
    | Except.error _ => (pc, [])
  | Op.sctpEstablished =>
    let pc1 : PeerConnection := { pc with hasSctp := true, sctpIsReady := true }
    (pc1, pc1.openDataChannels)
  | Op.onLocalDescriptionCb => ({ pc with hasLocalDescriptionCallback := true }, [])
  | Op.onLocalCandidateCb => ({ pc with hasLocalCandidateCallback := true }, [])
  | Op.onDataChannelCb => ({ pc with hasDataChannelCallback := true }, [])

/-- A sequence of driving operations, with the emitted actions
concatenated in order. -/
def runOps (pc : PeerConnection) : List Op → PeerConnection × List Action
  | [] => (pc, [])
  | op :: rest =>
    ((runOps (stepOp pc op).1 rest).1,
     (stepOp pc op).2 ++ (runOps (stepOp pc op).1 rest).2)

/-- Does this action create an ICE transport? -/
def isInitIce : Action → Bool
  | Action.initIce _ => true
  | _ => false

/-- How many ICE transports a list of actions creates. -/
def countInitIce (acts : List Action) : Nat := acts.countP isInitIce

/-- The stream id an action registers, when it registers one. -/
def registeredStream : Action → Option Nat
  | Action.registerChannel s => some s
  | _ => none

/-- The stream ids registered by a list of actions, in order. -/
def regStreams (acts : List Action) : List Nat := acts.filterMap registeredStream

/-- Is this action an invocation of an application callback? -/
def isAppCallback : Action → Bool
  | Action.emitLocalDescription => true
  | Action.emitLocalCandidate _ => true
  | _ => false

/-! Basic lemmas about the embedded operations. -/

@[simp] theorem recordRemoteDescription_dataChannels (pc : PeerConnection) (d : Description) :
    (pc.recordRemoteDescription d).dataChannels = pc.dataChannels := by
  unfold PeerConnection.recordRemoteDescription
  cases d.fingerprint <;> cases d.sctpPort <;> rfl

@[simp] theorem recordRemoteDescription_iceRole (pc : PeerConnection) (d : Description) :
    (pc.recordRemoteDescription d).iceRole = pc.iceRole := by
  unfold PeerConnection.recordRemoteDescription
  cases d.fingerprint <;> cases d.sctpPort <;> rfl

theorem recordRemoteDescription_remoteFingerprint (pc : PeerConnection) (d : Description) :
    (pc.recordRemoteDescription d).remoteFingerprint =
      (if d.fingerprint.isSome then d.fingerprint else pc.remoteFingerprint) := by
  unfold PeerConnection.recordRemoteDescription
  cases d.fingerprint <;> cases d.sctpPort <;> rfl

@[simp] theorem regStreams_nil : regStreams [] = [] := rfl

@[simp] theorem regStreams_cons (a : Action) (l : List Action) :
    regStreams (a :: l) = (registeredStream a).toList ++ regStreams l := by
  rw [regStreams, regStreams, List.filterMap_cons]
  cases registeredStream a <;> simp

@[simp] theorem regStreams_append (l1 l2 : List Action) :
    regStreams (l1 ++ l2) = regStreams l1 ++ regStreams l2 := by
  rw [regStreams, regStreams, regStreams, List.filterMap_append]

@[simp] theorem countInitIce_nil : countInitIce [] = 0 := rfl

@[simp] theorem countInitIce_cons (a : Action) (l : List Action) :
    countInitIce (a :: l) = countInitIce l + (if isInitIce a then 1 else 0) := by
  rw [countInitIce, countInitIce, List.countP_cons]

@[simp] theorem countInitIce_append (l1 l2 : List Action) :
    countInitIce (l1 ++ l2) = countInitIce l1 + countInitIce l2 := by
  rw [countInitIce, countInitIce, countInitIce, List.countP_append]

@[simp] theorem triggerLocalDescription_regStreams (pc : PeerConnection) :
    regStreams pc.triggerLocalDescription = [] := by
  unfold PeerConnection.triggerLocalDescription
  split <;> rfl

@[simp] theorem triggerLocalDescription_countInitIce (pc : PeerConnection) :
    countInitIce pc.triggerLocalDescription = 0 := by
  unfold PeerConnection.triggerLocalDescription
  split <;> rfl

@[simp] theorem openDataChannels_regStreams (pc : PeerConnection) :
    regStreams pc.openDataChannels = [] := by
  rw [regStreams, List.filterMap_eq_nil_iff]
  intro a ha
  rw [PeerConnection.openDataChannels] at ha
  obtain ⟨s, _, rfl⟩ := List.mem_map.mp ha
  rfl

@[simp] theorem openDataChannels_countInitIce (pc : PeerConnection) :
    countInitIce pc.openDataChannels = 0 := by
  rw [countInitIce, List.countP_eq_zero]
  intro a ha
  rw [PeerConnection.openDataChannels] at ha
  obtain ⟨s, _, rfl⟩ := List.mem_map.mp ha
  simp [isInitIce]

/-- Whatever `allocLoop` returns successfully is the least free id of the
start parity: it is at least the start, of the start's parity, free, and
every id of that parity between the start and it is taken. -/
theorem allocLoop_ok_spec (registry : List Nat) (stream s : Nat)
    (h : allocLoop registry stream = Except.ok s) :
    stream ≤ s ∧ s % 2 = stream % 2 ∧ s ∉ registry ∧
      ∀ t, stream ≤ t → t < s → t % 2 = stream % 2 → t ∈ registry := by
  induction stream using allocLoop.induct registry with
  | case1 stream hmem hge =>
    rw [allocLoop] at h
    rw [dif_pos hmem, dif_pos hge] at h
    exact Except.noConfusion h
  | case2 stream hmem hge ih =>
    rw [allocLoop] at h
    rw [dif_pos hmem, dif_neg hge] at h
    obtain ⟨h1, h2, h3, h4⟩ := ih h
    refine ⟨by omega, by omega, h3, ?_⟩
    intro t ht1 ht2 ht3
    rcases Nat.lt_or_ge t (stream + 2) with hlt | hge2
    · have ht : t = stream := by omega
      rwa [ht]
    · exact h4 t hge2 ht2 (by omega)
  | case3 stream hmem =>
    rw [allocLoop] at h
    rw [dif_neg hmem] at h
    obtain rfl : stream = s := by injection h
    exact ⟨Nat.le_refl _, rfl, hmem, fun t ht1 ht2 _ => absurd ht2 (by omega)⟩

/-- When every id of the start's parity from the start up to 65535 is
taken, `allocLoop` throws. -/
theorem allocLoop_full (registry : List Nat) (stream : Nat) :
    stream < 65535 →
    (∀ t, stream ≤ t → t < 65535 → t % 2 = stream % 2 → t ∈ registry) →
    allocLoop registry stream = Except.error "Too many DataChannels" := by
  induction stream using allocLoop.induct registry with
  | case1 stream hmem hge =>
    intro hlt hfull
    rw [allocLoop]
    rw [dif_pos hmem, dif_pos hge]
  | case2 stream hmem hge ih =>
    intro hlt hfull
    rw [allocLoop]
    rw [dif_pos hmem, dif_neg hge]
    exact ih (by omega) (fun t ht1 ht2 ht3 => hfull t (by omega) ht2 (by omega))
  | case3 stream hmem =>
    intro hlt hfull
    exact absurd (hfull stream (Nat.le_refl _) hlt rfl) hmem

theorem createDataChannel_error (pc : PeerConnection) (e : String)
    (h : allocLoop pc.dataChannels pc.streamBase = Except.error e) :
    pc.createDataChannel = (Except.error e, pc, []) := by
  unfold PeerConnection.createDataChannel
  rw [h]

/-- The outcome returned by `createDataChannel` is the allocation
outcome. -/
theorem createDataChannel_outcome (pc : PeerConnection) :
    (pc.createDataChannel).1 = allocLoop pc.dataChannels pc.streamBase := by
  unfold PeerConnection.createDataChannel
  cases h : allocLoop pc.dataChannels pc.streamBase with
  | error e => rfl
  | ok s =>
    dsimp only
    cases pc.iceRole with
    | none => rfl
    | some r =>
      dsimp only
      split <;> rfl

/-- On successful allocation, `createDataChannel` registers exactly the
allocated stream, creates an ICE transport only when none existed (in
which case the new transport exists afterwards), and touches neither the
recorded fingerprint nor the SCTP flags. -/
theorem createDataChannel_ok_parts (pc : PeerConnection) (s : Nat)
    (h : allocLoop pc.dataChannels pc.streamBase = Except.ok s) :
    (pc.createDataChannel).2.1.dataChannels = s :: pc.dataChannels ∧
    regStreams (pc.createDataChannel).2.2 = [s] ∧
    countInitIce (pc.createDataChannel).2.2 = (if pc.iceRole.isSome then 0 else 1) ∧
    (pc.createDataChannel).2.1.iceRole =
      (if pc.iceRole.isSome then pc.iceRole else some Role.Active) ∧
    (pc.createDataChannel).2.1.remoteFingerprint = pc.remoteFingerprint := by
  unfold PeerConnection.createDataChannel
  rw [h]
  cases hr : pc.iceRole with
  | none =>
    simp [registeredStream, isInitIce]
  | some r =>
    dsimp only
    split <;> simp [registeredStream, isInitIce]

/-- Each driving operation either leaves the channel registry alone and
registers nothing, or registers exactly one fresh stream id, consing it
onto the registry. -/
theorem stepOp_registry (pc : PeerConnection) (op : Op) :
    ((stepOp pc op).1.dataChannels = pc.dataChannels ∧ regStreams (stepOp pc op).2 = [])
    ∨ ∃ s, s ∉ pc.dataChannels ∧ (stepOp pc op).1.dataChannels = s :: pc.dataChannels ∧
        regStreams (stepOp pc op).2 = [s] := by
  cases op with
  | setRemoteDescription d =>
    left
    simp only [stepOp, PeerConnection.setRemoteDescription]
    cases hr : (pc.recordRemoteDescription d).iceRole <;> simp [registeredStream]
  | setRemoteCandidate t p r =>
    left
    simp only [stepOp, PeerConnection.setRemoteCandidate]
    cases hr : pc.iceRole <;> simp [registeredStream]
  | createDataChannel =>
    simp only [stepOp]
    cases h : allocLoop pc.dataChannels pc.streamBase with
    | error e =>
      left
      rw [createDataChannel_error pc e h]
      exact ⟨rfl, rfl⟩
    | ok s =>
      right
      obtain ⟨h1, h2, _, _, _⟩ := createDataChannel_ok_parts pc s h
      exact ⟨s, (allocLoop_ok_spec _ _ _ h).2.2.1, h1, h2⟩
  | forwardMessage m =>
    simp only [stepOp]
    cases hr : pc.iceRole with
    | none =>
      left
      simp [PeerConnection.forwardMessage, hr]
    | some r =>
      cases hs : pc.hasSctp with
      | false =>
        left
        simp [PeerConnection.forwardMessage, hr, hs]
      | true =>
        by_cases hm : m.stream ∈ pc.dataChannels
        · left
          simp [PeerConnection.forwardMessage, hr, hs, hm, registeredStream]
        · by_cases hcond : m.type = MessageType.Control ∧
              m.data.head? = some dataChannelOpenMessage ∧ m.stream % 2 = remoteParity r
          · right
            refine ⟨m.stream, hm, ?_, ?_⟩ <;>
              simp [PeerConnection.forwardMessage, hr, hs, hm, hcond, registeredStream]
          · left
            simp [PeerConnection.forwardMessage, hr, hs, hm, hcond, registeredStream]
  | sctpEstablished =>
    left
    simp [stepOp]
  | onLocalDescriptionCb =>
    left
    exact ⟨rfl, rfl⟩
  | onLocalCandidateCb =>
    left
    exact ⟨rfl, rfl⟩
  | onDataChannelCb =>
    left
    exact ⟨rfl, rfl⟩

/-- Each driving operation either keeps the ICE transport field and
creates no transport, or — only when no transport existed — creates
exactly one, which then exists. -/
theorem stepOp_ice (pc : PeerConnection) (op : Op) :
    ((stepOp pc op).1.iceRole = pc.iceRole ∧ countInitIce (stepOp pc op).2 = 0)
    ∨ (pc.iceRole = none ∧ countInitIce (stepOp pc op).2 = 1 ∧
        ((stepOp pc op).1.iceRole).isSome = true) := by
  cases op with
  | setRemoteDescription d =>
    simp only [stepOp, PeerConnection.setRemoteDescription]
    cases hr : (pc.recordRemoteDescription d).iceRole with
    | none =>
      right
      rw [recordRemoteDescription_iceRole] at hr
      simp [hr, isInitIce]
    | some r =>
      left
      rw [recordRemoteDescription_iceRole] at hr
      simp [hr, isInitIce]
  | setRemoteCandidate t p r =>
    left
    simp only [stepOp, PeerConnection.setRemoteCandidate]
    cases hr : pc.iceRole <;> simp [isInitIce, hr]
  | createDataChannel =>
    simp only [stepOp]
    cases h : allocLoop pc.dataChannels pc.streamBase with
    | error e =>
      left
      rw [createDataChannel_error pc e h]
      exact ⟨rfl, rfl⟩
    | ok s =>
      obtain ⟨_, _, h3, h4, _⟩ := createDataChannel_ok_parts pc s h
      cases hr : pc.iceRole with
      | none =>
        right
        rw [hr] at h3 h4
        simp only [Option.isSome_none, Bool.false_eq_true, if_false] at h3 h4
        exact ⟨rfl, h3, by rw [h4]; rfl⟩
      | some r =>
        left
        rw [hr] at h3 h4
        simp only [Option.isSome_some, if_true] at h3 h4
        exact ⟨h4, h3⟩
  | forwardMessage m =>
    simp only [stepOp]
    cases hr : pc.iceRole with
    | none =>
      left
      simp [PeerConnection.forwardMessage, hr]
    | some r =>
      cases hs : pc.hasSctp with
      | false =>
        left
        simp [PeerConnection.forwardMessage, hr, hs]
      | true =>
        left
        by_cases hm : m.stream ∈ pc.dataChannels
        · simp [PeerConnection.forwardMessage, hr, hs, hm, isInitIce]
        · by_cases hcond : m.type = MessageType.Control ∧
              m.data.head? = some dataChannelOpenMessage ∧ m.stream % 2 = remoteParity r
          · simp [PeerConnection.forwardMessage, hr, hs, hm, hcond, isInitIce]
          · simp [PeerConnection.forwardMessage, hr, hs, hm, hcond, isInitIce]
  | sctpEstablished =>
    left
    simp [stepOp]
  | onLocalDescriptionCb =>
    left
    exact ⟨rfl, rfl⟩
  | onLocalCandidateCb =>
    left
    exact ⟨rfl, rfl⟩
  | onDataChannelCb =>
    left
    exact ⟨rfl, rfl⟩

/-- A recorded remote fingerprint comes either from before the operation
or from a `setRemoteDescription` carrying that fingerprint. -/
theorem stepOp_fingerprint (pc : PeerConnection) (op : Op) (fp : String)
    (h : (stepOp pc op).1.remoteFingerprint = some fp) :
    pc.remoteFingerprint = some fp ∨
      ∃ d, op = Op.setRemoteDescription d ∧ d.fingerprint = some fp := by
  cases op with
  | setRemoteDescription d =>
    simp only [stepOp, PeerConnection.setRemoteDescription] at h
    cases hr : (pc.recordRemoteDescription d).iceRole with
    | none =>
      rw [hr] at h
      simp only at h
      rw [recordRemoteDescription_remoteFingerprint] at h
      cases hf : d.fingerprint with
      | none =>
        left
        rw [hf] at h
        simpa using h
      | some f =>
        right
        rw [hf] at h
        simp at h
        exact ⟨d, rfl, by rw [hf, h]⟩
    | some r =>
      rw [hr] at h
      simp only at h
      rw [recordRemoteDescription_remoteFingerprint] at h
      cases hf : d.fingerprint with
      | none =>
        left
        rw [hf] at h
        simpa using h
      | some f =>
        right
        rw [hf] at h
        simp at h
        exact ⟨d, rfl, by rw [hf, h]⟩
  | setRemoteCandidate t p r =>
    left
    simp only [stepOp, PeerConnection.setRemoteCandidate] at h
    cases hr : pc.iceRole <;> rw [hr] at h <;> exact h
  | createDataChannel =>
    simp only [stepOp] at h
    cases hc : allocLoop pc.dataChannels pc.streamBase with
    | error e =>
      left
      rw [createDataChannel_error pc e hc] at h
      exact h
    | ok s =>
      left
      obtain ⟨_, _, _, _, h5⟩ := createDataChannel_ok_parts pc s hc
      rw [h5] at h
      exact h
  | forwardMessage m =>
    left
    simp only [stepOp] at h
    cases hr : pc.iceRole with
    | none =>
      simp [PeerConnection.forwardMessage, hr] at h
      exact h
    | some r =>
      cases hs : pc.hasSctp with
      | false =>
        simp [PeerConnection.forwardMessage, hr, hs] at h
        exact h
      | true =>
        by_cases hm : m.stream ∈ pc.dataChannels
        · simp [PeerConnection.forwardMessage, hr, hs, hm] at h
          exact h
        · by_cases hcond : m.type = MessageType.Control ∧
              m.data.head? = some dataChannelOpenMessage ∧ m.stream % 2 = remoteParity r
          · simp [PeerConnection.forwardMessage, hr, hs, hm, hcond] at h
            exact h
          · simp [PeerConnection.forwardMessage, hr, hs, hm, hcond] at h
            exact h
  | sctpEstablished =>
    left
    simpa [stepOp] using h
  | onLocalDescriptionCb =>
    left
    exact h
  | onLocalCandidateCb =>
    left
    exact h
  | onDataChannelCb =>
    left
    exact h

/-- Across any run: the registered stream ids are pairwise distinct, all
of them are fresh with respect to the starting registry, and the registry
only grows. -/
theorem runOps_registry (ops : List Op) (pc : PeerConnection) :
    (regStreams (runOps pc ops).2).Nodup ∧
    (∀ s ∈ regStreams (runOps pc ops).2, s ∉ pc.dataChannels) ∧
    (∀ s ∈ pc.dataChannels, s ∈ (runOps pc ops).1.dataChannels) := by
  induction ops generalizing pc with
  | nil => simp [runOps]
  | cons op rest ih =>
    rw [runOps]
    obtain ⟨ihn, ihf, ihm⟩ := ih (stepOp pc op).1
    rcases stepOp_registry pc op with ⟨h1, h2⟩ | ⟨s, hs1, hs2, hs3⟩
    · rw [h1] at ihf ihm
      simp only [regStreams_append, h2, List.nil_append]
      exact ⟨ihn, ihf, ihm⟩
    · rw [hs2] at ihf ihm
      simp only [regStreams_append, hs3, List.cons_append, List.nil_append]
      refine ⟨?_, ?_, ?_⟩
      · refine List.nodup_cons.mpr ⟨?_, ihn⟩
        intro hmem
        exact ihf s hmem (List.mem_cons_self s pc.dataChannels)
      · intro t ht
        rcases List.mem_cons.mp ht with rfl | ht2
        · exact hs1
        · intro htpc
          exact ihf t ht2 (List.mem_cons_of_mem s htpc)
      · intro t ht
        exact ihm t (List.mem_cons_of_mem s ht)

/-- Across any run, at most one ICE transport is created, and none at all
when one already exists; an existing transport persists. -/
theorem runOps_ice (ops : List Op) (pc : PeerConnection) :
    countInitIce (runOps pc ops).2 ≤ (if pc.iceRole.isSome then 0 else 1) ∧
    (pc.iceRole.isSome = true → ((runOps pc ops).1.iceRole).isSome = true) := by
  induction ops generalizing pc with
  | nil => simp [runOps]
  | cons op rest ih =>
    rw [runOps]
    obtain ⟨ihc, ihp⟩ := ih (stepOp pc op).1
    rcases stepOp_ice pc op with ⟨h1, h2⟩ | ⟨h1, h2, h3⟩
    · rw [h1] at ihc ihp
      constructor
      · simp only [countInitIce_append, h2, Nat.zero_add]
        exact ihc
      · exact ihp
    · have hrest : countInitIce (runOps (stepOp pc op).1 rest).2 = 0 := by
        rw [h3] at ihc
        simpa using ihc
      constructor
      · simp [countInitIce_append, h2, hrest, h1]
      · intro hsome
        rw [h1] at hsome
        exact absurd hsome (by simp)

/-- A remote fingerprint recorded at the end of a run was either recorded
before the run or carried by some `setRemoteDescription` in it. -/
theorem runOps_fingerprint (ops : List Op) (pc : PeerConnection) (fp : String)
    (h : ((runOps pc ops).1).remoteFingerprint = some fp) :
    pc.remoteFingerprint = some fp ∨
      ∃ d, Op.setRemoteDescription d ∈ ops ∧ d.fingerprint = some fp := by
  induction ops generalizing pc with
  | nil =>
    left
    rw [runOps] at h
    exact h
  | cons op rest ih =>
    rw [runOps] at h
    rcases ih (stepOp pc op).1 h with hstep | ⟨d, hd1, hd2⟩
    · rcases stepOp_fingerprint pc op fp hstep with hpc | ⟨d, hd1, hd2⟩
      · left
        exact hpc
      · right
        exact ⟨d, by rw [hd1]; exact List.mem_cons_self _ _, hd2⟩
    · right
      exact ⟨d, List.mem_cons_of_mem op hd1, hd2⟩

/-! Concrete fixtures used to instantiate the claim theorems. -/

/-- A connection whose ICE transport exists with role Active and whose
SCTP transport exists (the state in which inbound messages arrive). -/
def pcC1 : PeerConnection :=
  { PeerConnection.init with iceRole := some Role.Active, hasSctp := true }

/-- A connection with two locally created channels 0 and 2. -/
def pcTwo : PeerConnection :=
  { PeerConnection.init with dataChannels := [0, 2] }

/-- Every even id below 65535, i.e. 0, 2, ..., 65534.  Kept irreducible
so that proofs reason about it through its defining equation instead of
evaluating the 32768-element list. -/
def evensBelow65535 : List Nat := (List.range 32768).map (fun k => 2 * k)

attribute [irreducible] evensBelow65535

/-- A connection whose registry holds every even id below 65535. -/
def pcEvensFull : PeerConnection :=
  { PeerConnection.init with dataChannels := evensBelow65535 }

/-- A connection whose ICE transport already exists (role ActPass, as a
first `setRemoteDescription` leaves it). -/
def pcIce : PeerConnection :=
  { PeerConnection.init with iceRole := some Role.ActPass }

/-- A connection with an `onLocalCandidate` callback registered. -/
def pcCb : PeerConnection :=
  { PeerConnection.init with hasLocalCandidateCallback := true }

/-- A remote description carrying a fingerprint and an SCTP port. -/
def descW : Description :=
  { fingerprint := some "AA:BB", sctpPort := some 5001, sdp := "v=0" }

/-! Claim theorems. -/

/-- C1 counterexample: with local role Active, a control message on the
unknown odd stream 1 whose payload is the two bytes 0x03 0x00 does not
have a single payload byte equal to 0x03, so the claim as stated demands
a reset of stream 1 and no registration; `forwardMessage` instead
constructs, registers and delivers to a new channel and resets nothing. -/
theorem C1_counterexample :
    (Message.mk MessageType.Control 1 [dataChannelOpenMessage, 0]).data
        ≠ [dataChannelOpenMessage] ∧
    pcC1.iceRole = some Role.Active ∧
    pcC1.hasSctp = true ∧
    (1 : Nat) ∉ pcC1.dataChannels ∧
    (1 : Nat) % 2 = remoteParity Role.Active ∧
    pcC1.forwardMessage (Message.mk MessageType.Control 1 [dataChannelOpenMessage, 0]) =
      Except.ok ({ pcC1 with dataChannels := [1] },
        [Action.newChannel 1, Action.registerChannel 1, Action.deliverToChannel 1]) ∧
    pcC1.forwardMessage (Message.mk MessageType.Control 1 [dataChannelOpenMessage, 0]) ≠
      Except.ok (pcC1, [Action.sctpReset 1]) := by
  refine ⟨by decide, rfl, rfl, by decide, by decide, by decide, by decide⟩

/-- C1 (amended): for an inbound message whose stream id is not
registered, with both transports present: when the message is of class
control, its FIRST payload byte is 0x03 (the code checks only the byte at
offset zero, not that the payload is a single byte) and its stream parity
is the remote parity, `forwardMessage` constructs a channel, registers it
under the stream id and delivers the message to it; otherwise it resets
the stream and registers nothing. -/
theorem C1_open_message_routing (pc : PeerConnection) (msg : Message) (r : Role)
    (hice : pc.iceRole = some r) (hsctp : pc.hasSctp = true)
    (hnew : msg.stream ∉ pc.dataChannels) :
    ((msg.type = MessageType.Control ∧ msg.data.head? = some dataChannelOpenMessage ∧
        msg.stream % 2 = remoteParity r) →
      pc.forwardMessage msg =
        Except.ok ({ pc with dataChannels := msg.stream :: pc.dataChannels },
          [Action.newChannel msg.stream, Action.registerChannel msg.stream,
           Action.deliverToChannel msg.stream])) ∧
    (¬(msg.type = MessageType.Control ∧ msg.data.head? = some dataChannelOpenMessage ∧
        msg.stream % 2 = remoteParity r) →
      pc.forwardMessage msg = Except.ok (pc, [Action.sctpReset msg.stream])) := by
  constructor <;> intro hcond <;>
    simp [PeerConnection.forwardMessage, hice, hsctp, hnew, hcond]

/-- C1 witness: stream 3 with payload 0x03 yields a registered channel,
stream 2 (wrong parity) yields a reset. -/
theorem C1_witness :
    pcC1.forwardMessage (Message.mk MessageType.Control 3 [dataChannelOpenMessage]) =
      Except.ok ({ pcC1 with dataChannels := [3] },
        [Action.newChannel 3, Action.registerChannel 3, Action.deliverToChannel 3]) ∧
    pcC1.forwardMessage (Message.mk MessageType.Control 2 [dataChannelOpenMessage]) =
      Except.ok (pcC1, [Action.sctpReset 2]) :=
  ⟨(C1_open_message_routing pcC1 (Message.mk MessageType.Control 3 [dataChannelOpenMessage])
      Role.Active rfl rfl (by decide)).1 (by decide),
   (C1_open_message_routing pcC1 (Message.mk MessageType.Control 2 [dataChannelOpenMessage])
      Role.Active rfl rfl (by decide)).2 (by decide)⟩

/-- C2: every successful `createDataChannel` returns the lowest free
stream id of the local parity (even when the local role is Active, odd
otherwise, the base being `streamBase`), and across every run from the
initial state all registered stream ids are pairwise distinct. -/
theorem C2_stream_allocation (pc : PeerConnection) (s : Nat)
    (h : (pc.createDataChannel).1 = Except.ok s) :
    s % 2 = pc.streamBase ∧
    s ∉ pc.dataChannels ∧
    (∀ t, t % 2 = pc.streamBase → t < s → t ∈ pc.dataChannels) ∧
    (∀ ops, (regStreams (runOps PeerConnection.init ops).2).Nodup) := by
  rw [createDataChannel_outcome] at h
  obtain ⟨h1, h2, h3, h4⟩ := allocLoop_ok_spec _ _ _ h
  have hbase : pc.streamBase = 0 ∨ pc.streamBase = 1 := by
    unfold PeerConnection.streamBase
    split
    · left
      rfl
    · right
      rfl
  refine ⟨?_, h3, ?_, ?_⟩
  · rcases hbase with hb | hb <;> rw [hb] at h2 ⊢ <;> omega
  · intro t hpar hlt
    refine h4 t ?_ hlt ?_
    · rcases hbase with hb | hb <;> rw [hb] at hpar ⊢ <;> omega
    · rcases hbase with hb | hb <;> rw [hb] at hpar ⊢ <;> omega
  · intro ops
    exact (runOps_registry ops PeerConnection.init).1

/-- C2 witness: with ids 0 and 2 taken the next allocated id is 4. -/
theorem C2_witness :
    (pcTwo.createDataChannel).1 = Except.ok 4 ∧
    4 % 2 = pcTwo.streamBase ∧
    (4 : Nat) ∉ pcTwo.dataChannels ∧
    (regStreams (runOps PeerConnection.init [Op.createDataChannel]).2).Nodup := by
  have halloc : (pcTwo.createDataChannel).1 = Except.ok 4 := by
    rw [createDataChannel_outcome]
    have hb : pcTwo.streamBase = 0 := by decide
    rw [hb]
    show allocLoop [0, 2] 0 = Except.ok 4
    simp [allocLoop]
  obtain ⟨w1, w2, _, w4⟩ := C2_stream_allocation pcTwo 4 halloc
  exact ⟨halloc, w1, w2, w4 [Op.createDataChannel]⟩

/-- C3: when every stream id of the local parity below 65535 is already
registered, `createDataChannel` throws and returns the state unchanged:
nothing is inserted or removed and no action is performed (the throw
happens before the insertion). -/
theorem C3_allocation_exhaustion (pc : PeerConnection)
    (h : ∀ t, t < 65535 → t % 2 = pc.streamBase → t ∈ pc.dataChannels) :
    pc.createDataChannel = (Except.error "Too many DataChannels", pc, []) := by
  have hbase : pc.streamBase = 0 ∨ pc.streamBase = 1 := by
    unfold PeerConnection.streamBase
    split
    · left
      rfl
    · right
      rfl
  have hlt : pc.streamBase < 65535 := by rcases hbase with hb | hb <;> omega
  have hfull : ∀ t, pc.streamBase ≤ t → t < 65535 → t % 2 = pc.streamBase % 2 →
      t ∈ pc.dataChannels := by
    intro t h1 h2 h3
    apply h t h2
    rcases hbase with hb | hb <;> rw [hb] at h3 ⊢ <;> omega
  exact createDataChannel_error pc _ (allocLoop_full pc.dataChannels pc.streamBase hlt hfull)

/-- C3 witness: with all 32768 even ids below 65535 taken, allocation
throws and the state is returned unmodified. -/
theorem C3_witness :
    (∀ t, t < 65535 → t % 2 = pcEvensFull.streamBase → t ∈ pcEvensFull.dataChannels) ∧
    pcEvensFull.createDataChannel = (Except.error "Too many DataChannels", pcEvensFull, []) := by
  have hb : pcEvensFull.streamBase = 0 := by decide
  have hev : evensBelow65535 = (List.range 32768).map (fun k => 2 * k) := by
    unfold evensBelow65535
    rfl
  have hmem : ∀ t, t < 65535 → t % 2 = pcEvensFull.streamBase → t ∈ pcEvensFull.dataChannels := by
    intro t h1 h2
    rw [hb] at h2
    have hdc : pcEvensFull.dataChannels = evensBelow65535 := rfl
    rw [hdc, hev]
    exact List.mem_map.mpr ⟨t / 2, List.mem_range.mpr (by omega), by omega⟩
  exact ⟨hmem, C3_allocation_exhaustion pcEvensFull hmem⟩

/-- C4: once an ICE transport exists, `setRemoteDescription` only records
the description's fields and forwards it to the existing transport: it
emits exactly the forward action — so it creates no transport and
re-emits no local description — and keeps the transport; moreover across
every run from the initial state at most one ICE transport is ever
created. -/
theorem C4_single_ice_session (pc : PeerConnection) (d : Description)
    (h : pc.iceRole.isSome = true) :
    pc.setRemoteDescription d =
      (pc.recordRemoteDescription d, [Action.iceSetRemoteDescription d]) ∧
    countInitIce (pc.setRemoteDescription d).2 = 0 ∧
    Action.emitLocalDescription ∉ (pc.setRemoteDescription d).2 ∧
    (pc.setRemoteDescription d).1.iceRole = pc.iceRole ∧
    (∀ ops, countInitIce (runOps PeerConnection.init ops).2 ≤ 1) := by
  have hsrd : pc.setRemoteDescription d =
      (pc.recordRemoteDescription d, [Action.iceSetRemoteDescription d]) := by
    obtain ⟨r, hr⟩ : ∃ r, (pc.recordRemoteDescription d).iceRole = some r := by
      rw [recordRemoteDescription_iceRole]
      cases hx : pc.iceRole with
      | none =>
        rw [hx] at h
        simp at h
      | some r => exact ⟨r, rfl⟩
    simp only [PeerConnection.setRemoteDescription]
    rw [hr]
  refine ⟨hsrd, ?_, ?_, ?_, ?_⟩
  · rw [hsrd]
    simp [isInitIce]
  · rw [hsrd]
    simp
  · rw [hsrd]
    rw [recordRemoteDescription_iceRole]
  · intro ops
    have hr := (runOps_ice ops PeerConnection.init).1
    simpa [PeerConnection.init] using hr

/-- C4 witness: a second `setRemoteDescription` on a connection whose ICE
transport exists only forwards, and a concrete two-call run creates one
transport. -/
theorem C4_witness :
    pcIce.setRemoteDescription descW =
      (pcIce.recordRemoteDescription descW, [Action.iceSetRemoteDescription descW]) ∧
    countInitIce (runOps PeerConnection.init
      [Op.setRemoteDescription descW, Op.setRemoteDescription descW]).2 ≤ 1 := by
  have h := C4_single_ice_session pcIce descW rfl
  exact ⟨h.1, h.2.2.2.2 [Op.setRemoteDescription descW, Op.setRemoteDescription descW]⟩

/-- C5: `checkFingerprint` answers true exactly when a remote fingerprint
is recorded and string-equals the presented value; it answers false
whenever none is recorded; and any fingerprint recorded after a run from
the initial state was carried by some `setRemoteDescription` call of the
run. -/
theorem C5_checkFingerprint_iff :
    (∀ (pc : PeerConnection) (fp : String),
      pc.checkFingerprint fp = true ↔ pc.remoteFingerprint = some fp) ∧
    (∀ (pc : PeerConnection) (fp : String),
      pc.remoteFingerprint = none → pc.checkFingerprint fp = false) ∧
    (∀ ops fp, ((runOps PeerConnection.init ops).1).remoteFingerprint = some fp →
      ∃ d, Op.setRemoteDescription d ∈ ops ∧ d.fingerprint = some fp) := by
  refine ⟨?_, ?_, ?_⟩
  · intro pc fp
    unfold PeerConnection.checkFingerprint
    cases h : pc.remoteFingerprint with
    | none => simp
    | some f => simp [beq_iff_eq]
  · intro pc fp h
    unfold PeerConnection.checkFingerprint
    rw [h]
  · intro ops fp h
    rcases runOps_fingerprint ops PeerConnection.init fp h with hinit | hex
    · exact absurd hinit (by simp [PeerConnection.init])
    · exact hex

/-- C5 witness: no fingerprint recorded means false; after one
`setRemoteDescription` carrying a fingerprint, that call accounts for the
recorded value. -/
theorem C5_witness :
    PeerConnection.init.checkFingerprint "AA:BB" = false ∧
    ∃ d, Op.setRemoteDescription d ∈ [Op.setRemoteDescription descW] ∧
      d.fingerprint = some "AA:BB" :=
  ⟨C5_checkFingerprint_iff.2.1 PeerConnection.init "AA:BB" rfl,
   C5_checkFingerprint_iff.2.2 [Op.setRemoteDescription descW] "AA:BB" (by decide)⟩

/-- One `changeState` call adds a ready-callback invocation exactly when
the delivered state is READY. -/
theorem changeState_readyCount (t : IceTransport) (st : NiceState) :
    (t.changeState st).readyCount =
      t.readyCount + (if st = NiceState.Ready then 1 else 0) := by
  by_cases h : st = NiceState.Ready <;> simp [IceTransport.changeState, h]

/-- `changeState` preserves the stream id. -/
theorem changeState_streamId (t : IceTransport) (st : NiceState) :
    (t.changeState st).streamId = t.streamId := by
  by_cases h : st = NiceState.Ready <;> simp [IceTransport.changeState, h]

/-- C6 counterexample: delivering READY, then DISCONNECTED, then READY
again invokes the ready callback twice — the claim demands exactly one
invocation, at the first transition into READY, for every sequence. -/
theorem C6_counterexample :
    (IceTransport.runChangeStates (IceTransport.mk NiceState.Disconnected 0 1)
        [NiceState.Ready, NiceState.Disconnected, NiceState.Ready]).readyCount = 2 ∧
    ¬(IceTransport.runChangeStates (IceTransport.mk NiceState.Disconnected 0 1)
        [NiceState.Ready, NiceState.Disconnected, NiceState.Ready]).readyCount = 1 := by
  constructor
  · rfl
  · decide

/-- C6 (amended): the ready callback is invoked on EVERY transition whose
new state is READY — once per READY element of the delivered sequence,
re-entries included — not only on the first. -/
theorem C6_ready_each_entry (t : IceTransport) (states : List NiceState) :
    (t.runChangeStates states).readyCount =
      t.readyCount + states.count NiceState.Ready := by
  induction states generalizing t with
  | nil => simp [IceTransport.runChangeStates]
  | cons st rest ih =>
    have hstep : t.runChangeStates (st :: rest) =
        (t.changeState st).runChangeStates rest := rfl
    rw [hstep, ih, changeState_readyCount, List.count_cons]
    by_cases h : st = NiceState.Ready <;> simp [h] <;> omega

/-- C7: `setRemoteCandidate` before any ICE transport exists returns
normally with the state unchanged and no action at all: the candidate is
dropped without buffering, whatever the ICE layer would have answered. -/
theorem C7_candidate_dropped_without_ice (pc : PeerConnection) (text : String)
    (parseOk : Bool) (setRet : Int) (h : pc.iceRole = none) :
    pc.setRemoteCandidate text parseOk setRet = (pc, []) := by
  simp only [PeerConnection.setRemoteCandidate]
  rw [h]

/-- C7 witness: a candidate supplied to a fresh connection is dropped. -/
theorem C7_witness :
    PeerConnection.init.setRemoteCandidate "a=candidate:1 1 UDP 1 10.0.0.1 5000 typ host"
      true 1 = (PeerConnection.init, []) :=
  C7_candidate_dropped_without_ice PeerConnection.init
    "a=candidate:1 1 UDP 1 10.0.0.1 5000 typ host" true 1 rfl

/-- C8: gathering completion passes the empty sentinel to the candidate
callback, and `triggerLocalCandidate` (with an application callback
registered) maps an empty candidate to an empty emission and a present
candidate to its text — the sentinel is neither dropped nor turned into a
candidate value. -/
theorem C8_end_of_candidates (pc : PeerConnection) (c : Candidate) (sdp : String)
    (h : pc.hasLocalCandidateCallback = true) :
    IceTransport.processGatheringDone = (none : Option Candidate) ∧
    pc.triggerLocalCandidate IceTransport.processGatheringDone =
      [Action.emitLocalCandidate none] ∧
    pc.triggerLocalCandidate (some c) = [Action.emitLocalCandidate (some c.toText)] ∧
    pc.triggerLocalCandidate (IceTransport.processCandidate sdp) =
      [Action.emitLocalCandidate (some sdp)] := by
  refine ⟨rfl, ?_, ?_, ?_⟩ <;>
    simp [PeerConnection.triggerLocalCandidate, h, IceTransport.processGatheringDone,
      IceTransport.processCandidate, Candidate.toText]

/-- C8 witness: concrete sentinel and candidate forwarding. -/
theorem C8_witness :
    pcCb.triggerLocalCandidate IceTransport.processGatheringDone =
      [Action.emitLocalCandidate none] ∧
    pcCb.triggerLocalCandidate (some (Candidate.mk "cand-sdp" "0")) =
      [Action.emitLocalCandidate (some "cand-sdp")] :=
  ⟨(C8_end_of_candidates pcCb (Candidate.mk "cand-sdp" "0") "x" rfl).2.1,
   (C8_end_of_candidates pcCb (Candidate.mk "cand-sdp" "0") "x" rfl).2.2.1⟩

/-- C9: `send` on a session whose stream was never established (stream id
zero) transmits nothing and returns false; on an established stream it
transmits the datagram and returns true. -/
theorem C9_send_requires_stream (t : IceTransport) (msg : Message) :
    (t.streamId = 0 → t.send msg = (false, [])) ∧
    (t.streamId ≠ 0 → t.send msg = (true, [Action.transmit t.streamId msg.data])) := by
  constructor
  · intro h
    simp [IceTransport.send, h]
  · intro h
    simp [IceTransport.send, h, IceTransport.outgoing]

/-- C9 witness: stream id 0 fails without transmitting; stream id 7
transmits and succeeds. -/
theorem C9_witness :
    IceTransport.send (IceTransport.mk NiceState.Ready 0 0)
      (Message.mk MessageType.Binary 5 [1, 2]) = (false, []) ∧
    IceTransport.send (IceTransport.mk NiceState.Ready 0 7)
      (Message.mk MessageType.Binary 5 [1, 2]) = (true, [Action.transmit 7 [1, 2]]) :=
  ⟨(C9_send_requires_stream (IceTransport.mk NiceState.Ready 0 0)
      (Message.mk MessageType.Binary 5 [1, 2])).1 rfl,
   (C9_send_requires_stream (IceTransport.mk NiceState.Ready 0 7)
      (Message.mk MessageType.Binary 5 [1, 2])).2 (by decide)⟩

/-- C10: with an ICE transport present, `setRemoteCandidate` discards the
acceptance boolean of the ICE layer's `addRemoteCandidate`: the call
leaves the state unchanged, invokes no application callback, and its
application-visible outcome is identical whatever the ICE layer answers —
in particular when the candidate is rejected as unparseable. -/
theorem C10_rejection_unobservable (pc : PeerConnection) (text : String)
    (p1 : Bool) (r1 : Int) (p2 : Bool) (r2 : Int)
    (h : pc.iceRole.isSome = true)
    (hrej : IceTransport.addRemoteCandidate p1 r1 = false) :
    (pc.setRemoteCandidate text p1 r1).1 = pc ∧
    (pc.setRemoteCandidate text p1 r1).2.filter isAppCallback = [] ∧
    ((pc.setRemoteCandidate text p1 r1).1,
        (pc.setRemoteCandidate text p1 r1).2.filter isAppCallback) =
      ((pc.setRemoteCandidate text p2 r2).1,
        (pc.setRemoteCandidate text p2 r2).2.filter isAppCallback) := by
  simp only [PeerConnection.setRemoteCandidate]
  cases hr : pc.iceRole with
  | none =>
    rw [hr] at h
    simp at h
  | some r => simp [isAppCallback]

/-- C10 witness: a candidate the ICE layer rejects (parse failure) leaves
the same application-visible outcome as an accepted one. -/
theorem C10_witness :
    (pcIce.setRemoteCandidate "malformed" false 0).1 = pcIce ∧
    (pcIce.setRemoteCandidate "malformed" false 0).2.filter isAppCallback = [] :=
  ⟨(C10_rejection_unobservable pcIce "malformed" false 0 true 1 rfl rfl).1,
   (C10_rejection_unobservable pcIce "malformed" false 0 true 1 rfl rfl).2.1⟩

end LibDataChannel
